import Mathlib

/-!
Shallow embedding of the tapiceros-api-backend payment/webhook logic.

The definitions below translate, table by table and handler by handler, the
TypeScript route handlers of the repository:
* the Stripe webhook reconciler (`POST /api/stripe/webhook` and its helper
  functions `handlePaymentSucceeded`, `handleInvoicePaymentSucceeded`,
  `handleSubscriptionCreated`, `handleSubscriptionUpdated`,
  `handleSubscriptionDeleted`);
* the order-update route (`PUT /api/orders/:id`), restricted to the fields
  that interact with the `status`/`completedAt` logic;
* the post like/unlike toggle (`POST /api/posts/:id/like`).

The relational store is modelled as lists of rows; Prisma `create` appends,
`updateMany` maps over matching rows, `findFirst`/`findUnique` are `find?`,
`delete` on the like's compound unique key removes the matching rows.
Monetary amounts are rationals (JS numbers; Stripe event amounts are integer
minor units). Timestamps (`new Date()`) are an explicit `now : Nat` argument.
-/

namespace Tapiceros

/-- Payment.status values of the Prisma data model used by the code. -/
inductive PaymentStatus
  | PENDING
  | COMPLETED
  | FAILED
  | REFUNDED
deriving DecidableEq, Repr

/-- Invoice.status values used by the code. -/
inductive InvoiceStatus
  | DRAFT
  | SENT
  | PAID
  | VOID
deriving DecidableEq, Repr

/-- Membership.status values used by the code. -/
inductive MembershipStatus
  | ACTIVE
  | CANCELLED
deriving DecidableEq, Repr

/-- Order.status values accepted by the order routes. -/
inductive OrderStatus
  | PENDING
  | IN_PROGRESS
  | COMPLETED
  | CANCELLED
deriving DecidableEq, Repr

/-- A user row, restricted to the fields the modelled handlers read. -/
structure User where
  id : String
  fcmToken : Option String
deriving DecidableEq, Repr

/-- A Payment row as written by `handlePaymentSucceeded`. -/
structure Payment where
  amount : Rat
  currency : String
  status : PaymentStatus
  stripePaymentId : String
  description : String
  userId : String
  orderId : Option String
deriving DecidableEq, Repr

/-- An Invoice row, restricted to the fields the modelled handlers touch. -/
structure Invoice where
  invoiceNumber : String
  amount : Rat
  currency : String
  status : InvoiceStatus
  orderId : Option String
  stripeInvoiceId : Option String
deriving DecidableEq, Repr

/-- A Membership row as written/updated by the subscription handlers. -/
structure Membership where
  type : String
  status : MembershipStatus
  stripeSubscriptionId : String
  stripePriceId : String
  userId : String
  endDate : Option Nat
deriving DecidableEq, Repr

/-- An Order row, restricted to the fields the `PUT /api/orders/:id`
status/completedAt logic reads and writes. -/
structure Order where
  id : String
  userId : String
  title : String
  status : OrderStatus
  completedAt : Option Nat
deriving DecidableEq, Repr

/-- A Post row, restricted to the fields the like toggle reads and writes. -/
structure Post where
  id : String
  isPublished : Bool
  likes : Int
deriving DecidableEq, Repr

/-- A PostLike row: the compound unique key `postId_userId` of the code. -/
structure PostLike where
  postId : String
  userId : String
deriving DecidableEq, Repr

/-- A persisted Notification row (the webhook reconciler never writes one;
the table is carried so that "no store write" statements cover it). -/
structure NotificationRow where
  title : String
  body : String
  userId : String
deriving DecidableEq, Repr

/-- The relational store: one list of rows per table. -/
structure Store where
  users : List User := []
  payments : List Payment := []
  invoices : List Invoice := []
  memberships : List Membership := []
  orders : List Order := []
  posts : List Post := []
  postLikes : List PostLike := []
  notifications : List NotificationRow := []
deriving DecidableEq, Repr

/-- JS truthiness of an optional string (`undefined`, `null` and `""` are
falsy), as used by `if (user?.fcmToken)` and `if (title)`. -/
def jsTruthy : Option String → Bool
  | some s => s ≠ ""
  | none => false

/-- `x || null` on an optional string: absent or empty becomes `null`. -/
def jsOrNull : Option String → Option String
  | some s => if s = "" then none else some s
  | none => none

/-- `x || d` on an optional string: absent or empty becomes the default. -/
def jsOrDefault (o : Option String) (d : String) : String :=
  match o with
  | some s => if s = "" then d else s
  | none => d

/-- metadata of a `payment_intent.succeeded` event: the handler reads
`metadata.userId`, `metadata.orderId` and `metadata.description`. -/
structure PaymentMetadata where
  userId : Option String
  orderId : Option String
  description : Option String
deriving DecidableEq, Repr

/-- The `payment_intent` object of a `payment_intent.succeeded` event.
`amount` is in minor units (cents), an integer in the processor's payload. -/
structure PaymentIntentObj where
  id : String
  amount : Int
  currency : String
  metadata : PaymentMetadata
deriving DecidableEq, Repr

/-- metadata of a `customer.subscription.created` event. -/
structure SubscriptionMetadata where
  userId : Option String
  membershipType : Option String
deriving DecidableEq, Repr

/-- The subscription object of a `customer.subscription.created` event;
`items` is the list of price ids of `subscription.items.data`. -/
structure SubscriptionObj where
  id : String
  items : List String
  metadata : SubscriptionMetadata
deriving DecidableEq, Repr

/-- A verified webhook event, dispatched on by the route's switch. `other`
carries the raw type string of any event the switch does not handle. -/
inductive StripeEvent
  | paymentIntentSucceeded (pi : PaymentIntentObj)
  | invoicePaymentSucceeded (stripeInvoiceId : String)
  | subscriptionCreated (sub : SubscriptionObj)
  | subscriptionUpdated (subscriptionId : String) (status : String)
  | subscriptionDeleted (subscriptionId : String)
  | other (type : String)
deriving DecidableEq, Repr

/-- The event-type strings the switch dispatches on (from
`STRIPE_WEBHOOK_EVENTS` in `src/config/stripe.ts`; the five handled cases). -/
def handledTypes : List String :=
  ["payment_intent.succeeded", "invoice.payment_succeeded",
   "customer.subscription.created", "customer.subscription.updated",
   "customer.subscription.deleted"]

/-- The type tag of an event. -/
def eventType : StripeEvent → String
  | .paymentIntentSucceeded _ => "payment_intent.succeeded"
  | .invoicePaymentSucceeded _ => "invoice.payment_succeeded"
  | .subscriptionCreated _ => "customer.subscription.created"
  | .subscriptionUpdated _ _ => "customer.subscription.updated"
  | .subscriptionDeleted _ => "customer.subscription.deleted"
  | .other t => t

/-- Serialization of an optional metadata string for the raw-body model. -/
def encOpt : Option String → String
  | some s => "s:" ++ s
  | none => "n"

/-- The raw request body carrying an event, as a string (the JSON body the
processor signs). Fields are joined with separators so that different events
have different bodies on all inputs used here. -/
def encodeEvent : StripeEvent → String
  | .paymentIntentSucceeded pi =>
      "payment_intent.succeeded;" ++ pi.id ++ ";" ++ toString pi.amount ++ ";" ++
        pi.currency ++ ";" ++ encOpt pi.metadata.userId ++ ";" ++
        encOpt pi.metadata.orderId ++ ";" ++ encOpt pi.metadata.description
  | .invoicePaymentSucceeded invId => "invoice.payment_succeeded;" ++ invId
  | .subscriptionCreated sub =>
      "customer.subscription.created;" ++ sub.id ++ ";" ++
        String.intercalate "," sub.items ++ ";" ++ encOpt sub.metadata.userId ++
        ";" ++ encOpt sub.metadata.membershipType
  | .subscriptionUpdated subId st => "customer.subscription.updated;" ++ subId ++ ";" ++ st
  | .subscriptionDeleted subId => "customer.subscription.deleted;" ++ subId
  | .other t => "other;" ++ t

/-- Modelled from the spec: `stripe.webhooks.constructEvent`'s signature
verification (§4.2 "verify-and-parse-webhook(raw body, signature, secret) →
typed event or signature error") lives in the Stripe library, not in this
repository. The HMAC over the raw body is modelled as a function of the
shared secret and the body that is injective in the body for a fixed secret,
so a tampered body no longer matches a signature computed for the original. -/
def signatureOf (secret body : String) : String :=
  "v1=" ++ secret ++ "#" ++ body

/-- An inbound webhook request: the event carried by the raw body, plus the
`stripe-signature` header value. -/
structure WebhookRequest where
  event : StripeEvent
  sig : String
deriving DecidableEq, Repr

/-- The responses the webhook route can produce, with their status codes
given by `statusOf`. -/
inductive WebhookResp
  | received
  | secretMissing
  | invalidSignature
  | processingError
deriving DecidableEq, Repr

/-- HTTP status of each webhook response (200 `{received:true}`, 500 missing
secret, 400 invalid signature, 500 processing error). -/
def statusOf : WebhookResp → Nat
  | .received => 200
  | .secretMissing => 500
  | .invalidSignature => 400
  | .processingError => 500

/-- Observable steps of a webhook processing run, used to state ordering
facts (the financial write precedes the acknowledgment). -/
inductive Step
  | dbWrite
  | notifAttempt (ok : Bool)
  | respond
deriving DecidableEq, Repr

/-- Outcome of one webhook delivery: response, resulting store, and the
ordered trace of observable steps. -/
structure WebhookOutcome where
  resp : WebhookResp
  store : Store
  trace : List Step
deriving DecidableEq, Repr

/-- `handlePaymentSucceeded`: creates the Payment row (amount converted from
cents, status COMPLETED, `stripePaymentId` = the intent id), then tries to
push a notification to the user's device, catching any dispatch failure.
Modelled from the spec where the repository's Prisma schema (not under the
provided sources) decides: `Payment.userId` is a required owning-user
reference (§3), so a create whose `metadata.userId` is absent is rejected by
the store layer before any row is written, surfacing as a processing error
(§7). `notifOk` is the outcome of `sendNotificationToDevice`. -/
def handlePaymentSucceeded (notifOk : Bool) (pi : PaymentIntentObj)
    (s : Store) : Except Unit (Store × List Step) :=
  match pi.metadata.userId with
  | none => .error ()
  | some uid =>
      let payment : Payment :=
        { amount := (pi.amount : Rat) / 100
          currency := pi.currency
          status := .COMPLETED
          stripePaymentId := pi.id
          description := jsOrDefault pi.metadata.description "Payment"
          userId := uid
          orderId := jsOrNull pi.metadata.orderId }
      let s1 := { s with payments := s.payments ++ [payment] }
      let notifSteps :=
        match s1.users.find? (fun u => u.id = uid) with
        | some u => if jsTruthy u.fcmToken then [Step.notifAttempt notifOk] else []
        | none => []
      .ok (s1, Step.dbWrite :: notifSteps)

/-- `handleInvoicePaymentSucceeded`: `updateMany` over invoices whose
`stripeInvoiceId` equals the event's invoice id, setting status PAID. -/
def handleInvoicePaymentSucceeded (invId : String) (s : Store) : Store :=
  { s with invoices := s.invoices.map (fun i =>
      if i.stripeInvoiceId = some invId then { i with status := .PAID } else i) }

/-- `handleSubscriptionCreated`: creates a Membership(status=ACTIVE) row.
Reading `subscription.items.data[0].price.id` throws on an empty item list,
and — modelled from the spec, the Prisma schema being outside the provided
sources — a create with absent required `metadata.userId` or
`metadata.membershipType` is rejected by the store layer (§3, §7), so both
surface as processing errors with no row written. -/
def handleSubscriptionCreated (sub : SubscriptionObj) (s : Store) :
    Except Unit (Store × List Step) :=
  match sub.items.head? with
  | none => .error ()
  | some priceId =>
      match sub.metadata.userId, sub.metadata.membershipType with
      | some uid, some mt =>
          .ok ({ s with memberships := s.memberships ++
                  [{ type := mt
                     status := .ACTIVE
                     stripeSubscriptionId := sub.id
                     stripePriceId := priceId
                     userId := uid
                     endDate := none }] },
               [Step.dbWrite])
      | _, _ => .error ()

/-- `handleSubscriptionUpdated`: `updateMany` over memberships matching the
subscription id; status becomes ACTIVE iff the processor status is "active",
else CANCELLED; `endDate` becomes `now` iff the processor status is exactly
"canceled", else null. -/
def handleSubscriptionUpdated (now : Nat) (subId status : String) (s : Store) : Store :=
  { s with memberships := s.memberships.map (fun m =>
      if m.stripeSubscriptionId = subId then
        { m with
          status := if status = "active" then .ACTIVE else .CANCELLED
          endDate := if status = "canceled" then some now else none }
      else m) }

/-- `handleSubscriptionDeleted`: `updateMany` over memberships matching the
subscription id, setting status CANCELLED and `endDate` to now. -/
def handleSubscriptionDeleted (now : Nat) (subId : String) (s : Store) : Store :=
  { s with memberships := s.memberships.map (fun m =>
      if m.stripeSubscriptionId = subId then
        { m with status := .CANCELLED, endDate := some now }
      else m) }

/-- The switch of the webhook route over the verified event's type: each
recognized type runs its handler, any other type only logs. -/
def processEvent (now : Nat) (notifOk : Bool) :
    StripeEvent → Store → Except Unit (Store × List Step)
  | .paymentIntentSucceeded pi, s => handlePaymentSucceeded notifOk pi s
  | .invoicePaymentSucceeded invId, s =>
      .ok (handleInvoicePaymentSucceeded invId s, [Step.dbWrite])
  | .subscriptionCreated sub, s => handleSubscriptionCreated sub s
  | .subscriptionUpdated subId st, s =>
      .ok (handleSubscriptionUpdated now subId st s, [Step.dbWrite])
  | .subscriptionDeleted subId, s =>
      .ok (handleSubscriptionDeleted now subId s, [Step.dbWrite])
  | .other _, s => .ok (s, [])

/-- `POST /api/stripe/webhook`: 500 if no webhook secret is configured;
verify the signature over the raw body, 400 `Invalid signature` on failure
with no store access; otherwise run the switch inside try/catch, answering
`{received:true}` on success and 500 on a processing error (a handler
rejection happens before any row of that handler is written). -/
def stripeWebhook (secret : Option String) (now : Nat) (notifOk : Bool)
    (req : WebhookRequest) (s : Store) : WebhookOutcome :=
  match secret with
  | none => ⟨.secretMissing, s, []⟩
  | some sec =>
      if req.sig = signatureOf sec (encodeEvent req.event) then
        match processEvent now notifOk req.event s with
        | .ok (s1, steps) => ⟨.received, s1, steps ++ [Step.respond]⟩
        | .error _ => ⟨.processingError, s, []⟩
      else ⟨.invalidSignature, s, []⟩

/-- A recognized event whose required metadata is absent: a
`payment_intent.succeeded` with no `metadata.userId`, or a
`customer.subscription.created` with no `metadata.userId` or no
`metadata.membershipType`. -/
def requiredMetadataMissing : StripeEvent → Prop
  | .paymentIntentSucceeded pi => pi.metadata.userId = none
  | .subscriptionCreated sub =>
      sub.metadata.userId = none ∨ sub.metadata.membershipType = none
  | _ => False

instance : DecidablePred requiredMetadataMissing := by
  intro e
  unfold requiredMetadataMissing
  cases e <;> infer_instance

/-! ### `PUT /api/orders/:id` (status / completedAt slice)

The route validates the body, looks the order up by id and owner, builds an
`updateData` patch from the optional body fields, and — when the body's
status is COMPLETED while the stored status is not — adds
`completedAt = new Date()` to the patch. Body fields that neither read nor
write `status`/`completedAt`/`title` (description, client data, budget,
dates, priority) are omitted here: they only copy scalars. -/

/-- The request body of the order update, restricted to the modelled
fields; `none` is an absent field. -/
structure OrderUpdateReq where
  title : Option String := none
  status : Option OrderStatus := none
deriving DecidableEq, Repr

/-- The `updateData` patch the handler builds: a field is `none` when it is
not part of the update. -/
structure OrderPatch where
  title : Option String := none
  status : Option OrderStatus := none
  completedAt : Option Nat := none
deriving DecidableEq, Repr

/-- Builds `updateData` from the body and the pre-update row: `if (title)`
keeps only truthy titles; `if (status)` copies the status; and
`completedAt = new Date()` is added exactly when the body's status is
COMPLETED and the stored status is not. -/
def buildOrderPatch (now : Nat) (req : OrderUpdateReq) (existing : Order) :
    OrderPatch :=
  { title := match req.title with
      | some t => if t = "" then none else some t
      | none => none
    status := req.status
    completedAt :=
      if req.status = some OrderStatus.COMPLETED ∧
          existing.status ≠ OrderStatus.COMPLETED then some now else none }

/-- Applies an `updateData` patch to a row (fields absent from the patch are
left as stored). -/
def applyPatch (p : OrderPatch) (o : Order) : Order :=
  { o with
    title := p.title.getD o.title
    status := p.status.getD o.status
    completedAt := match p.completedAt with
      | some t => some t
      | none => o.completedAt }

/-- Result of the order update route: 404 when no order matches id + owner,
otherwise the updated row as returned in the response body. -/
inductive OrderUpdateResult
  | notFound
  | updated (o : Order)
deriving DecidableEq, Repr

/-- `PUT /api/orders/:id`: `findFirst` by id and owning user (404 when
absent), build the patch, `update` the row with that id. -/
def updateOrderRoute (now : Nat) (userId orderId : String)
    (req : OrderUpdateReq) (s : Store) : OrderUpdateResult × Store :=
  match s.orders.find? (fun o => o.id = orderId && o.userId = userId) with
  | none => (.notFound, s)
  | some existing =>
      let p := buildOrderPatch now req existing
      (.updated (applyPatch p existing),
       { s with orders := s.orders.map (fun o =>
           if o.id = orderId then applyPatch p o else o) })

/-! ### `POST /api/posts/:id/like` -/

/-- Whether a PostLike row for the compound key `(postId, userId)` exists
(the route's `findUnique` on `postId_userId`). -/
def hasLike (userId postId : String) (s : Store) : Bool :=
  s.postLikes.any (fun l => l.postId = postId && l.userId = userId)

/-- Result of the like route: 404 for an absent or unpublished post,
otherwise the `liked` flag of the response body. -/
inductive LikeResult
  | notFound
  | toggled (liked : Bool)
deriving DecidableEq, Repr

/-- `POST /api/posts/:id/like`: 404 unless a published post with the id
exists; if the user's like exists, delete it and decrement the post's
`likes` counter, answering `liked:false`; otherwise create the like and
increment the counter, answering `liked:true`. -/
def likePost (userId postId : String) (s : Store) : LikeResult × Store :=
  match s.posts.find? (fun p => p.id = postId && p.isPublished) with
  | none => (.notFound, s)
  | some _ =>
      if hasLike userId postId s then
        (.toggled false,
         { s with
           postLikes := s.postLikes.filter
             (fun l => !(l.postId = postId && l.userId = userId))
           posts := s.posts.map (fun p =>
             if p.id = postId then { p with likes := p.likes - 1 } else p) })
      else
        (.toggled true,
         { s with
           postLikes := s.postLikes ++ [{ postId := postId, userId := userId }]
           posts := s.posts.map (fun p =>
             if p.id = postId then { p with likes := p.likes + 1 } else p) })

/-! ## Theorems -/

/-- C1: for every `payment_intent.succeeded` webhook event whose metadata
carries a known userId, processing the event creates exactly one Payment row
with status COMPLETED whose amount equals the event's amount divided by the
minor-unit factor (100) and whose external payment reference equals the
event's payment-intent id. -/
theorem payment_succeeded_creates_single_completed_payment
    (sec : String) (now : Nat) (notifOk : Bool) (pi : PaymentIntentObj)
    (uid : String) (s : Store)
    (huid : pi.metadata.userId = some uid)
    (hknown : s.users.any (fun u => u.id = uid) = true) :
    (stripeWebhook (some sec) now notifOk
        ⟨.paymentIntentSucceeded pi,
         signatureOf sec (encodeEvent (.paymentIntentSucceeded pi))⟩ s).resp
      = .received ∧
    ∃ p : Payment,
      (stripeWebhook (some sec) now notifOk
          ⟨.paymentIntentSucceeded pi,
           signatureOf sec (encodeEvent (.paymentIntentSucceeded pi))⟩ s).store.payments
        = s.payments ++ [p] ∧
      p.status = .COMPLETED ∧ p.amount = (pi.amount : Rat) / 100 ∧
      p.stripePaymentId = pi.id ∧ p.userId = uid := by
  obtain ⟨piid, amt, cur, ⟨muid, mord, mdesc⟩⟩ := pi
  have h : muid = some uid := huid
  subst h
  simp only [stripeWebhook, if_true]
  exact ⟨rfl, _, rfl, rfl, rfl, rfl, rfl⟩

/-- Witness for C1 at a concrete store and event. -/
theorem payment_succeeded_creates_single_completed_payment_witness :
    ({ id := "pi_1", amount := 5000, currency := "usd",
       metadata := { userId := some "u1", orderId := none, description := none } } :
        PaymentIntentObj).metadata.userId = some "u1" ∧
    (({ users := [{ id := "u1", fcmToken := some "tok" }] } : Store).users.any
        (fun u => u.id = "u1") = true) ∧
    ((stripeWebhook (some "whsec") 3 true
        ⟨.paymentIntentSucceeded
           { id := "pi_1", amount := 5000, currency := "usd",
             metadata := { userId := some "u1", orderId := none, description := none } },
         signatureOf "whsec" (encodeEvent (.paymentIntentSucceeded
           { id := "pi_1", amount := 5000, currency := "usd",
             metadata := { userId := some "u1", orderId := none, description := none } }))⟩
        { users := [{ id := "u1", fcmToken := some "tok" }] }).resp = .received ∧
      ∃ p : Payment,
        (stripeWebhook (some "whsec") 3 true
            ⟨.paymentIntentSucceeded
               { id := "pi_1", amount := 5000, currency := "usd",
                 metadata := { userId := some "u1", orderId := none, description := none } },
             signatureOf "whsec" (encodeEvent (.paymentIntentSucceeded
               { id := "pi_1", amount := 5000, currency := "usd",
                 metadata := { userId := some "u1", orderId := none, description := none } }))⟩
            { users := [{ id := "u1", fcmToken := some "tok" }] }).store.payments
          = ({ users := [{ id := "u1", fcmToken := some "tok" }] } : Store).payments ++ [p] ∧
        p.status = .COMPLETED ∧
        p.amount = ((5000 : Int) : Rat) / 100 ∧
        p.stripePaymentId = "pi_1" ∧ p.userId = "u1") :=
  ⟨rfl, rfl,
   payment_succeeded_creates_single_completed_payment "whsec" 3 true _ "u1" _ rfl rfl⟩

/-- C2 counterexample: a `customer.subscription.updated` event with the
non-active processor status "past_due" cancels the matching Membership but
leaves its end timestamp null, not the processing time (now = 7): the code
writes `endDate = now` only for the status "canceled". -/
theorem subscription_updated_past_due_leaves_end_date_null :
    (stripeWebhook (some "whsec") 7 true
        ⟨.subscriptionUpdated "sub_1" "past_due",
         signatureOf "whsec" (encodeEvent (.subscriptionUpdated "sub_1" "past_due"))⟩
        { memberships := [{ type := "BASIC", status := .ACTIVE,
                            stripeSubscriptionId := "sub_1",
                            stripePriceId := "price_1", userId := "u1",
                            endDate := none }] }).resp = .received ∧
    (stripeWebhook (some "whsec") 7 true
        ⟨.subscriptionUpdated "sub_1" "past_due",
         signatureOf "whsec" (encodeEvent (.subscriptionUpdated "sub_1" "past_due"))⟩
        { memberships := [{ type := "BASIC", status := .ACTIVE,
                            stripeSubscriptionId := "sub_1",
                            stripePriceId := "price_1", userId := "u1",
                            endDate := none }] }).store.memberships
      = [{ type := "BASIC", status := .CANCELLED, stripeSubscriptionId := "sub_1",
           stripePriceId := "price_1", userId := "u1", endDate := none }] ∧
    ¬ ((stripeWebhook (some "whsec") 7 true
        ⟨.subscriptionUpdated "sub_1" "past_due",
         signatureOf "whsec" (encodeEvent (.subscriptionUpdated "sub_1" "past_due"))⟩
        { memberships := [{ type := "BASIC", status := .ACTIVE,
                            stripeSubscriptionId := "sub_1",
                            stripePriceId := "price_1", userId := "u1",
                            endDate := none }] }).store.memberships.all
          (fun m => m.endDate = some 7)) = true := by
  refine ⟨rfl, by decide, by decide⟩

/-- C2 amended: a `customer.subscription.updated` event whose processor
status is not "active" sets every matching Membership's status to CANCELLED;
its end timestamp is set to the processing time only when the processor
status is exactly "canceled", and is cleared to null for any other
non-active status. -/
theorem subscription_updated_nonactive_cancels_membership
    (sec : String) (now : Nat) (notifOk : Bool) (subId st : String) (s : Store)
    (hst : st ≠ "active") :
    (stripeWebhook (some sec) now notifOk
        ⟨.subscriptionUpdated subId st,
         signatureOf sec (encodeEvent (.subscriptionUpdated subId st))⟩ s).resp
      = .received ∧
    ∀ m ∈ (stripeWebhook (some sec) now notifOk
        ⟨.subscriptionUpdated subId st,
         signatureOf sec (encodeEvent (.subscriptionUpdated subId st))⟩ s).store.memberships,
      m.stripeSubscriptionId = subId →
        m.status = .CANCELLED ∧
        m.endDate = (if st = "canceled" then some now else none) := by
  simp only [stripeWebhook, if_true]
  refine ⟨rfl, ?_⟩
  intro m hm hid
  simp only [processEvent, handleSubscriptionUpdated, List.mem_map] at hm
  obtain ⟨m0, _, hm0⟩ := hm
  by_cases h0 : m0.stripeSubscriptionId = subId
  · rw [if_pos h0] at hm0
    subst hm0
    exact ⟨by simp [if_neg hst], rfl⟩
  · rw [if_neg h0] at hm0
    subst hm0
    exact absurd hid h0

/-- Witness for the amended C2 at the "past_due" counterexample input. -/
theorem subscription_updated_nonactive_cancels_membership_witness :
    ("past_due" ≠ "active") ∧
    ((stripeWebhook (some "whsec") 7 true
        ⟨.subscriptionUpdated "sub_1" "past_due",
         signatureOf "whsec" (encodeEvent (.subscriptionUpdated "sub_1" "past_due"))⟩
        { memberships := [{ type := "BASIC", status := .ACTIVE,
                            stripeSubscriptionId := "sub_1",
                            stripePriceId := "price_1", userId := "u1",
                            endDate := none }] }).resp = .received ∧
      ∀ m ∈ (stripeWebhook (some "whsec") 7 true
          ⟨.subscriptionUpdated "sub_1" "past_due",
           signatureOf "whsec" (encodeEvent (.subscriptionUpdated "sub_1" "past_due"))⟩
          { memberships := [{ type := "BASIC", status := .ACTIVE,
                              stripeSubscriptionId := "sub_1",
                              stripePriceId := "price_1", userId := "u1",
                              endDate := none }] }).store.memberships,
        m.stripeSubscriptionId = "sub_1" →
          m.status = .CANCELLED ∧
          m.endDate = (if "past_due" = "canceled" then some 7 else none)) :=
  ⟨by decide,
   subscription_updated_nonactive_cancels_membership "whsec" 7 true "sub_1"
     "past_due" _ (by decide)⟩

/-- C3 (code defect, spec §8 flags the idempotence target as unmet):
delivering the same `payment_intent.succeeded` event (external payment
reference "pi_1") twice yields two Payment rows carrying that reference —
the second delivery double-applies the financial state instead of being
idempotent. -/
theorem duplicate_payment_event_creates_two_rows :
    ((stripeWebhook (some "whsec") 4 true
        ⟨.paymentIntentSucceeded
           { id := "pi_1", amount := 5000, currency := "usd",
             metadata := { userId := some "u1", orderId := none, description := none } },
         signatureOf "whsec" (encodeEvent (.paymentIntentSucceeded
           { id := "pi_1", amount := 5000, currency := "usd",
             metadata := { userId := some "u1", orderId := none, description := none } }))⟩
        (stripeWebhook (some "whsec") 3 true
          ⟨.paymentIntentSucceeded
             { id := "pi_1", amount := 5000, currency := "usd",
               metadata := { userId := some "u1", orderId := none, description := none } },
           signatureOf "whsec" (encodeEvent (.paymentIntentSucceeded
             { id := "pi_1", amount := 5000, currency := "usd",
               metadata := { userId := some "u1", orderId := none, description := none } }))⟩
          { users := [{ id := "u1", fcmToken := some "tok" }] }).store).store.payments.filter
        (fun p => p.stripePaymentId = "pi_1")).length = 2 := by
  rfl

/-- C4: a webhook request whose body/signature pair fails verification
against the shared secret is answered with a 400 rejection and no store
write: the whole store (Payment, Invoice, Membership, Order, Notification
tables included) is unchanged, and no processing step runs. -/
theorem invalid_signature_rejected_without_writes
    (sec : String) (now : Nat) (notifOk : Bool) (req : WebhookRequest)
    (s : Store) (h : req.sig ≠ signatureOf sec (encodeEvent req.event)) :
    (stripeWebhook (some sec) now notifOk req s).resp = .invalidSignature ∧
    statusOf (stripeWebhook (some sec) now notifOk req s).resp = 400 ∧
    (stripeWebhook (some sec) now notifOk req s).store = s ∧
    (stripeWebhook (some sec) now notifOk req s).trace = [] := by
  simp only [stripeWebhook, if_neg h]
  refine ⟨?_, ?_, ?_, ?_⟩ <;> trivial

/-- Witness for C4: a tampered body (the amount changed from 5000 to 9999)
presented with the signature computed for the original body is rejected with
400 and the store — holding a user, a payment, an invoice, a membership, an
order and a notification — is untouched. -/
theorem invalid_signature_rejected_without_writes_witness :
    (signatureOf "whsec" (encodeEvent (.paymentIntentSucceeded
        { id := "pi_1", amount := 5000, currency := "usd",
          metadata := { userId := some "u1", orderId := none, description := none } }))
      ≠ signatureOf "whsec" (encodeEvent (.paymentIntentSucceeded
        { id := "pi_1", amount := 9999, currency := "usd",
          metadata := { userId := some "u1", orderId := none, description := none } }))) ∧
    ((stripeWebhook (some "whsec") 3 true
        ⟨.paymentIntentSucceeded
           { id := "pi_1", amount := 9999, currency := "usd",
             metadata := { userId := some "u1", orderId := none, description := none } },
         signatureOf "whsec" (encodeEvent (.paymentIntentSucceeded
           { id := "pi_1", amount := 5000, currency := "usd",
             metadata := { userId := some "u1", orderId := none, description := none } }))⟩
        { users := [{ id := "u1", fcmToken := some "tok" }]
          payments := [{ amount := 1, currency := "usd", status := .PENDING,
                         stripePaymentId := "pi_0", description := "d",
                         userId := "u1", orderId := none }]
          invoices := [{ invoiceNumber := "INV-1", amount := 2, currency := "usd",
                         status := .DRAFT, orderId := none,
                         stripeInvoiceId := some "in_1" }]
          memberships := [{ type := "BASIC", status := .ACTIVE,
                            stripeSubscriptionId := "sub_1",
                            stripePriceId := "price_1", userId := "u1",
                            endDate := none }]
          orders := [{ id := "o1", userId := "u1", title := "t",
                       status := .PENDING, completedAt := none }]
          notifications := [{ title := "n", body := "b", userId := "u1" }] }).resp
        = .invalidSignature ∧
      statusOf (stripeWebhook (some "whsec") 3 true
        ⟨.paymentIntentSucceeded
           { id := "pi_1", amount := 9999, currency := "usd",
             metadata := { userId := some "u1", orderId := none, description := none } },
         signatureOf "whsec" (encodeEvent (.paymentIntentSucceeded
           { id := "pi_1", amount := 5000, currency := "usd",
             metadata := { userId := some "u1", orderId := none, description := none } }))⟩
        { users := [{ id := "u1", fcmToken := some "tok" }]
          payments := [{ amount := 1, currency := "usd", status := .PENDING,
                         stripePaymentId := "pi_0", description := "d",
                         userId := "u1", orderId := none }]
          invoices := [{ invoiceNumber := "INV-1", amount := 2, currency := "usd",
                         status := .DRAFT, orderId := none,
                         stripeInvoiceId := some "in_1" }]
          memberships := [{ type := "BASIC", status := .ACTIVE,
                            stripeSubscriptionId := "sub_1",
                            stripePriceId := "price_1", userId := "u1",
                            endDate := none }]
          orders := [{ id := "o1", userId := "u1", title := "t",
                       status := .PENDING, completedAt := none }]
          notifications := [{ title := "n", body := "b", userId := "u1" }] }).resp
        = 400 ∧
      (stripeWebhook (some "whsec") 3 true
        ⟨.paymentIntentSucceeded
           { id := "pi_1", amount := 9999, currency := "usd",
             metadata := { userId := some "u1", orderId := none, description := none } },
         signatureOf "whsec" (encodeEvent (.paymentIntentSucceeded
           { id := "pi_1", amount := 5000, currency := "usd",
             metadata := { userId := some "u1", orderId := none, description := none } }))⟩
        { users := [{ id := "u1", fcmToken := some "tok" }]
          payments := [{ amount := 1, currency := "usd", status := .PENDING,
                         stripePaymentId := "pi_0", description := "d",
                         userId := "u1", orderId := none }]
          invoices := [{ invoiceNumber := "INV-1", amount := 2, currency := "usd",
                         status := .DRAFT, orderId := none,
                         stripeInvoiceId := some "in_1" }]
          memberships := [{ type := "BASIC", status := .ACTIVE,
                            stripeSubscriptionId := "sub_1",
                            stripePriceId := "price_1", userId := "u1",
                            endDate := none }]
          orders := [{ id := "o1", userId := "u1", title := "t",
                       status := .PENDING, completedAt := none }]
          notifications := [{ title := "n", body := "b", userId := "u1" }] }).store
        = { users := [{ id := "u1", fcmToken := some "tok" }]
            payments := [{ amount := 1, currency := "usd", status := .PENDING,
                           stripePaymentId := "pi_0", description := "d",
                           userId := "u1", orderId := none }]
            invoices := [{ invoiceNumber := "INV-1", amount := 2, currency := "usd",
                           status := .DRAFT, orderId := none,
                           stripeInvoiceId := some "in_1" }]
            memberships := [{ type := "BASIC", status := .ACTIVE,
                              stripeSubscriptionId := "sub_1",
                              stripePriceId := "price_1", userId := "u1",
                              endDate := none }]
            orders := [{ id := "o1", userId := "u1", title := "t",
                         status := .PENDING, completedAt := none }]
            notifications := [{ title := "n", body := "b", userId := "u1" }] } ∧
      (stripeWebhook (some "whsec") 3 true
        ⟨.paymentIntentSucceeded
           { id := "pi_1", amount := 9999, currency := "usd",
             metadata := { userId := some "u1", orderId := none, description := none } },
         signatureOf "whsec" (encodeEvent (.paymentIntentSucceeded
           { id := "pi_1", amount := 5000, currency := "usd",
             metadata := { userId := some "u1", orderId := none, description := none } }))⟩
        { users := [{ id := "u1", fcmToken := some "tok" }]
          payments := [{ amount := 1, currency := "usd", status := .PENDING,
                         stripePaymentId := "pi_0", description := "d",
                         userId := "u1", orderId := none }]
          invoices := [{ invoiceNumber := "INV-1", amount := 2, currency := "usd",
                         status := .DRAFT, orderId := none,
                         stripeInvoiceId := some "in_1" }]
          memberships := [{ type := "BASIC", status := .ACTIVE,
                            stripeSubscriptionId := "sub_1",
                            stripePriceId := "price_1", userId := "u1",
                            endDate := none }]
          orders := [{ id := "o1", userId := "u1", title := "t",
                       status := .PENDING, completedAt := none }]
          notifications := [{ title := "n", body := "b", userId := "u1" }] }).trace
        = []) :=
  ⟨by decide, invalid_signature_rejected_without_writes "whsec" 3 true _ _ (by decide)⟩

/-- C5: a recognized webhook event whose required metadata is missing (a
`payment_intent.succeeded` with no `metadata.userId`, or a
`customer.subscription.created` with no `metadata.userId` or no
`metadata.membershipType`) fails as a processing error answered with 500, so
the processor retries, and no partial row is written: the store is
unchanged. -/
theorem missing_required_metadata_fails_processing
    (sec : String) (now : Nat) (notifOk : Bool) (e : StripeEvent) (s : Store)
    (hm : requiredMetadataMissing e) :
    (stripeWebhook (some sec) now notifOk
        ⟨e, signatureOf sec (encodeEvent e)⟩ s).resp = .processingError ∧
    statusOf (stripeWebhook (some sec) now notifOk
        ⟨e, signatureOf sec (encodeEvent e)⟩ s).resp = 500 ∧
    (stripeWebhook (some sec) now notifOk
        ⟨e, signatureOf sec (encodeEvent e)⟩ s).store = s := by
  have hproc : processEvent now notifOk e s = .error () := by
    cases e with
    | paymentIntentSucceeded pi =>
        simp only [requiredMetadataMissing] at hm
        simp [processEvent, handlePaymentSucceeded, hm]
    | subscriptionCreated sub =>
        simp only [requiredMetadataMissing] at hm
        cases hitems : sub.items.head? with
        | none => simp [processEvent, handleSubscriptionCreated, hitems]
        | some priceId =>
            rcases hm with hu | ht
            · simp [processEvent, handleSubscriptionCreated, hitems, hu]
            · cases hu : sub.metadata.userId <;>
                simp [processEvent, handleSubscriptionCreated, hitems, hu, ht]
    | invoicePaymentSucceeded invId => exact absurd hm (by simp [requiredMetadataMissing])
    | subscriptionUpdated subId st => exact absurd hm (by simp [requiredMetadataMissing])
    | subscriptionDeleted subId => exact absurd hm (by simp [requiredMetadataMissing])
    | other t => exact absurd hm (by simp [requiredMetadataMissing])
  simp only [stripeWebhook, if_true, hproc]
  refine ⟨?_, ?_, ?_⟩ <;> trivial

/-- Witness for C5: a `payment_intent.succeeded` event with no
`metadata.userId` is answered with 500 and writes nothing. -/
theorem missing_required_metadata_fails_processing_witness :
    requiredMetadataMissing (.paymentIntentSucceeded
      { id := "pi_2", amount := 100, currency := "usd",
        metadata := { userId := none, orderId := none, description := none } }) ∧
    ((stripeWebhook (some "whsec") 3 true
        ⟨.paymentIntentSucceeded
           { id := "pi_2", amount := 100, currency := "usd",
             metadata := { userId := none, orderId := none, description := none } },
         signatureOf "whsec" (encodeEvent (.paymentIntentSucceeded
           { id := "pi_2", amount := 100, currency := "usd",
             metadata := { userId := none, orderId := none, description := none } }))⟩
        { users := [{ id := "u1", fcmToken := some "tok" }] }).resp
        = .processingError ∧
      statusOf (stripeWebhook (some "whsec") 3 true
        ⟨.paymentIntentSucceeded
           { id := "pi_2", amount := 100, currency := "usd",
             metadata := { userId := none, orderId := none, description := none } },
         signatureOf "whsec" (encodeEvent (.paymentIntentSucceeded
           { id := "pi_2", amount := 100, currency := "usd",
             metadata := { userId := none, orderId := none, description := none } }))⟩
        { users := [{ id := "u1", fcmToken := some "tok" }] }).resp = 500 ∧
      (stripeWebhook (some "whsec") 3 true
        ⟨.paymentIntentSucceeded
           { id := "pi_2", amount := 100, currency := "usd",
             metadata := { userId := none, orderId := none, description := none } },
         signatureOf "whsec" (encodeEvent (.paymentIntentSucceeded
           { id := "pi_2", amount := 100, currency := "usd",
             metadata := { userId := none, orderId := none, description := none } }))⟩
        { users := [{ id := "u1", fcmToken := some "tok" }] }).store
        = { users := [{ id := "u1", fcmToken := some "tok" }] }) :=
  ⟨rfl, missing_required_metadata_fails_processing "whsec" 3 true _ _ rfl⟩

/-- C6: a verified webhook event whose type is not one of the five handled
types is acknowledged with `{received:true}` (status 200) and performs no
state change; it is never treated as an error. -/
theorem unrecognized_event_type_acknowledged_noop
    (sec : String) (now : Nat) (notifOk : Bool) (t : String) (s : Store)
    (ht : t ∉ handledTypes) :
    (stripeWebhook (some sec) now notifOk
        ⟨.other t, signatureOf sec (encodeEvent (.other t))⟩ s).resp = .received ∧
    statusOf (stripeWebhook (some sec) now notifOk
        ⟨.other t, signatureOf sec (encodeEvent (.other t))⟩ s).resp = 200 ∧
    (stripeWebhook (some sec) now notifOk
        ⟨.other t, signatureOf sec (encodeEvent (.other t))⟩ s).store = s := by
  simp only [stripeWebhook, if_true, processEvent]
  refine ⟨?_, ?_, ?_⟩ <;> trivial

/-- Witness for C6 with the unhandled type `payment_intent.payment_failed`
(listed in the config but absent from the switch). -/
theorem unrecognized_event_type_acknowledged_noop_witness :
    ("payment_intent.payment_failed" ∉ handledTypes) ∧
    ((stripeWebhook (some "whsec") 3 true
        ⟨.other "payment_intent.payment_failed",
         signatureOf "whsec" (encodeEvent (.other "payment_intent.payment_failed"))⟩
        { users := [{ id := "u1", fcmToken := some "tok" }] }).resp = .received ∧
      statusOf (stripeWebhook (some "whsec") 3 true
        ⟨.other "payment_intent.payment_failed",
         signatureOf "whsec" (encodeEvent (.other "payment_intent.payment_failed"))⟩
        { users := [{ id := "u1", fcmToken := some "tok" }] }).resp = 200 ∧
      (stripeWebhook (some "whsec") 3 true
        ⟨.other "payment_intent.payment_failed",
         signatureOf "whsec" (encodeEvent (.other "payment_intent.payment_failed"))⟩
        { users := [{ id := "u1", fcmToken := some "tok" }] }).store
        = { users := [{ id := "u1", fcmToken := some "tok" }] }) :=
  ⟨by decide,
   unrecognized_event_type_acknowledged_noop "whsec" 3 true
     "payment_intent.payment_failed" _ (by decide)⟩

/-- C7: an `invoice.payment_succeeded` event whose processor invoice id
matches no stored Invoice performs no write and is acknowledged; when it
matches, every matching Invoice's status becomes PAID; and a
`customer.subscription.deleted` event with no matching Membership affects
zero rows and is acknowledged. -/
theorem unmatched_invoice_and_subscription_events_are_noops
    (sec : String) (now : Nat) (notifOk : Bool) (invId subId : String)
    (s : Store) :
    ((∀ i ∈ s.invoices, i.stripeInvoiceId ≠ some invId) →
      (stripeWebhook (some sec) now notifOk
          ⟨.invoicePaymentSucceeded invId,
           signatureOf sec (encodeEvent (.invoicePaymentSucceeded invId))⟩ s).resp
        = .received ∧
      (stripeWebhook (some sec) now notifOk
          ⟨.invoicePaymentSucceeded invId,
           signatureOf sec (encodeEvent (.invoicePaymentSucceeded invId))⟩ s).store
        = s) ∧
    ((stripeWebhook (some sec) now notifOk
        ⟨.invoicePaymentSucceeded invId,
         signatureOf sec (encodeEvent (.invoicePaymentSucceeded invId))⟩ s).resp
        = .received ∧
      ∀ i ∈ (stripeWebhook (some sec) now notifOk
          ⟨.invoicePaymentSucceeded invId,
           signatureOf sec (encodeEvent (.invoicePaymentSucceeded invId))⟩ s).store.invoices,
        i.stripeInvoiceId = some invId → i.status = .PAID) ∧
    ((∀ m ∈ s.memberships, m.stripeSubscriptionId ≠ subId) →
      (stripeWebhook (some sec) now notifOk
          ⟨.subscriptionDeleted subId,
           signatureOf sec (encodeEvent (.subscriptionDeleted subId))⟩ s).resp
        = .received ∧
      (stripeWebhook (some sec) now notifOk
          ⟨.subscriptionDeleted subId,
           signatureOf sec (encodeEvent (.subscriptionDeleted subId))⟩ s).store
        = s) := by
  refine ⟨?_, ⟨?_, ?_⟩, ?_⟩
  · intro h
    simp only [stripeWebhook, if_true, processEvent, handleInvoicePaymentSucceeded]
    have hmap : s.invoices.map (fun i =>
        if i.stripeInvoiceId = some invId then { i with status := .PAID } else i)
        = s.invoices := by
      have h1 : s.invoices.map (fun i =>
          if i.stripeInvoiceId = some invId then { i with status := .PAID } else i)
          = s.invoices.map (fun i => i) :=
        List.map_congr_left (fun i hi => if_neg (h i hi))
      rw [h1]
      simp
    refine ⟨by trivial, ?_⟩
    simp only [hmap]
  · simp only [stripeWebhook, if_true, processEvent]
  · intro i hi hid
    simp only [stripeWebhook, if_true, processEvent,
      handleInvoicePaymentSucceeded, List.mem_map] at hi
    obtain ⟨i0, _, hi0⟩ := hi
    by_cases h0 : i0.stripeInvoiceId = some invId
    · rw [if_pos h0] at hi0
      subst hi0
      rfl
    · rw [if_neg h0] at hi0
      subst hi0
      exact absurd hid h0
  · intro h
    simp only [stripeWebhook, if_true, processEvent, handleSubscriptionDeleted]
    have hmap : s.memberships.map (fun m =>
        if m.stripeSubscriptionId = subId then
          { m with status := .CANCELLED, endDate := some now } else m)
        = s.memberships := by
      have h1 : s.memberships.map (fun m =>
          if m.stripeSubscriptionId = subId then
            { m with status := .CANCELLED, endDate := some now } else m)
          = s.memberships.map (fun m => m) :=
        List.map_congr_left (fun m hm => if_neg (h m hm))
      rw [h1]
      simp
    refine ⟨by trivial, ?_⟩
    simp only [hmap]

/-- Witness for C7: an invoice event for the unknown id "in_404" and a
subscription-deleted event for the unknown id "sub_404" leave a store with
one unrelated invoice and one unrelated membership untouched, answering
success; an invoice event for the stored id "in_1" marks it PAID. -/
theorem unmatched_invoice_and_subscription_events_are_noops_witness :
    ((∀ i ∈ ({ invoices := [{ invoiceNumber := "INV-1", amount := 2,
                               currency := "usd", status := .DRAFT,
                               orderId := none, stripeInvoiceId := some "in_1" }]
               memberships := [{ type := "BASIC", status := .ACTIVE,
                                 stripeSubscriptionId := "sub_1",
                                 stripePriceId := "price_1", userId := "u1",
                                 endDate := none }] } : Store).invoices,
        i.stripeInvoiceId ≠ some "in_404") →
      (stripeWebhook (some "whsec") 3 true
          ⟨.invoicePaymentSucceeded "in_404",
           signatureOf "whsec" (encodeEvent (.invoicePaymentSucceeded "in_404"))⟩
          { invoices := [{ invoiceNumber := "INV-1", amount := 2,
                           currency := "usd", status := .DRAFT,
                           orderId := none, stripeInvoiceId := some "in_1" }]
            memberships := [{ type := "BASIC", status := .ACTIVE,
                              stripeSubscriptionId := "sub_1",
                              stripePriceId := "price_1", userId := "u1",
                              endDate := none }] }).resp = .received ∧
      (stripeWebhook (some "whsec") 3 true
          ⟨.invoicePaymentSucceeded "in_404",
           signatureOf "whsec" (encodeEvent (.invoicePaymentSucceeded "in_404"))⟩
          { invoices := [{ invoiceNumber := "INV-1", amount := 2,
                           currency := "usd", status := .DRAFT,
                           orderId := none, stripeInvoiceId := some "in_1" }]
            memberships := [{ type := "BASIC", status := .ACTIVE,
                              stripeSubscriptionId := "sub_1",
                              stripePriceId := "price_1", userId := "u1",
                              endDate := none }] }).store
        = { invoices := [{ invoiceNumber := "INV-1", amount := 2,
                           currency := "usd", status := .DRAFT,
                           orderId := none, stripeInvoiceId := some "in_1" }]
            memberships := [{ type := "BASIC", status := .ACTIVE,
                              stripeSubscriptionId := "sub_1",
                              stripePriceId := "price_1", userId := "u1",
                              endDate := none }] }) ∧
    ((∀ m ∈ ({ invoices := [{ invoiceNumber := "INV-1", amount := 2,
                               currency := "usd", status := .DRAFT,
                               orderId := none, stripeInvoiceId := some "in_1" }]
               memberships := [{ type := "BASIC", status := .ACTIVE,
                                 stripeSubscriptionId := "sub_1",
                                 stripePriceId := "price_1", userId := "u1",
                                 endDate := none }] } : Store).memberships,
        m.stripeSubscriptionId ≠ "sub_404") →
      (stripeWebhook (some "whsec") 3 true
          ⟨.subscriptionDeleted "sub_404",
           signatureOf "whsec" (encodeEvent (.subscriptionDeleted "sub_404"))⟩
          { invoices := [{ invoiceNumber := "INV-1", amount := 2,
                           currency := "usd", status := .DRAFT,
                           orderId := none, stripeInvoiceId := some "in_1" }]
            memberships := [{ type := "BASIC", status := .ACTIVE,
                              stripeSubscriptionId := "sub_1",
                              stripePriceId := "price_1", userId := "u1",
                              endDate := none }] }).resp = .received ∧
      (stripeWebhook (some "whsec") 3 true
          ⟨.subscriptionDeleted "sub_404",
           signatureOf "whsec" (encodeEvent (.subscriptionDeleted "sub_404"))⟩
          { invoices := [{ invoiceNumber := "INV-1", amount := 2,
                           currency := "usd", status := .DRAFT,
                           orderId := none, stripeInvoiceId := some "in_1" }]
            memberships := [{ type := "BASIC", status := .ACTIVE,
                              stripeSubscriptionId := "sub_1",
                              stripePriceId := "price_1", userId := "u1",
                              endDate := none }] }).store
        = { invoices := [{ invoiceNumber := "INV-1", amount := 2,
                           currency := "usd", status := .DRAFT,
                           orderId := none, stripeInvoiceId := some "in_1" }]
            memberships := [{ type := "BASIC", status := .ACTIVE,
                              stripeSubscriptionId := "sub_1",
                              stripePriceId := "price_1", userId := "u1",
                              endDate := none }] }) ∧
    (∀ i ∈ (stripeWebhook (some "whsec") 3 true
        ⟨.invoicePaymentSucceeded "in_1",
         signatureOf "whsec" (encodeEvent (.invoicePaymentSucceeded "in_1"))⟩
        { invoices := [{ invoiceNumber := "INV-1", amount := 2,
                         currency := "usd", status := .DRAFT,
                         orderId := none, stripeInvoiceId := some "in_1" }]
          memberships := [{ type := "BASIC", status := .ACTIVE,
                            stripeSubscriptionId := "sub_1",
                            stripePriceId := "price_1", userId := "u1",
                            endDate := none }] }).store.invoices,
      i.stripeInvoiceId = some "in_1" → i.status = .PAID) :=
  ⟨(unmatched_invoice_and_subscription_events_are_noops "whsec" 3 true
      "in_404" "sub_404" _).1,
   (unmatched_invoice_and_subscription_events_are_noops "whsec" 3 true
      "in_404" "sub_404" _).2.2,
   (unmatched_invoice_and_subscription_events_are_noops "whsec" 3 true
      "in_1" "sub_404" _).2.1.2⟩

/-- C8: for a `payment_intent.succeeded` event with valid metadata, the
Payment row is written before the acknowledgment (`dbWrite` strictly
precedes `respond` in the processing trace) and the acknowledgment
`{received:true}` is returned regardless of the notification-dispatch
outcome: the stored Payment state and the response are identical whether
`sendNotificationToDevice` succeeds or fails. -/
theorem payment_ack_independent_of_notification_outcome
    (sec : String) (now : Nat) (pi : PaymentIntentObj) (uid : String)
    (s : Store) (huid : pi.metadata.userId = some uid) :
    (stripeWebhook (some sec) now true
        ⟨.paymentIntentSucceeded pi,
         signatureOf sec (encodeEvent (.paymentIntentSucceeded pi))⟩ s).resp
      = .received ∧
    (stripeWebhook (some sec) now false
        ⟨.paymentIntentSucceeded pi,
         signatureOf sec (encodeEvent (.paymentIntentSucceeded pi))⟩ s).resp
      = .received ∧
    (stripeWebhook (some sec) now true
        ⟨.paymentIntentSucceeded pi,
         signatureOf sec (encodeEvent (.paymentIntentSucceeded pi))⟩ s).store
      = (stripeWebhook (some sec) now false
        ⟨.paymentIntentSucceeded pi,
         signatureOf sec (encodeEvent (.paymentIntentSucceeded pi))⟩ s).store ∧
    (∃ p : Payment,
      (stripeWebhook (some sec) now true
          ⟨.paymentIntentSucceeded pi,
           signatureOf sec (encodeEvent (.paymentIntentSucceeded pi))⟩ s).store.payments
        = s.payments ++ [p]) ∧
    (∀ notifOk : Bool, ∃ mid : List Step,
      (stripeWebhook (some sec) now notifOk
          ⟨.paymentIntentSucceeded pi,
           signatureOf sec (encodeEvent (.paymentIntentSucceeded pi))⟩ s).trace
        = Step.dbWrite :: mid ++ [Step.respond]) := by
  obtain ⟨piid, amt, cur, ⟨muid, mord, mdesc⟩⟩ := pi
  have h : muid = some uid := huid
  subst h
  simp only [stripeWebhook, if_true, processEvent, handlePaymentSucceeded]
  exact ⟨by trivial, by trivial, by trivial, ⟨_, by trivial⟩,
    fun notifOk => ⟨_, rfl⟩⟩

/-- Witness for C8 at a concrete store and event. -/
theorem payment_ack_independent_of_notification_outcome_witness :
    (({ id := "pi_1", amount := 5000, currency := "usd",
        metadata := { userId := some "u1", orderId := none, description := none } } :
          PaymentIntentObj).metadata.userId = some "u1") ∧
    ((stripeWebhook (some "whsec") 3 true
        ⟨.paymentIntentSucceeded
           { id := "pi_1", amount := 5000, currency := "usd",
             metadata := { userId := some "u1", orderId := none, description := none } },
         signatureOf "whsec" (encodeEvent (.paymentIntentSucceeded
           { id := "pi_1", amount := 5000, currency := "usd",
             metadata := { userId := some "u1", orderId := none, description := none } }))⟩
        { users := [{ id := "u1", fcmToken := some "tok" }] }).resp = .received ∧
      (stripeWebhook (some "whsec") 3 false
        ⟨.paymentIntentSucceeded
           { id := "pi_1", amount := 5000, currency := "usd",
             metadata := { userId := some "u1", orderId := none, description := none } },
         signatureOf "whsec" (encodeEvent (.paymentIntentSucceeded
           { id := "pi_1", amount := 5000, currency := "usd",
             metadata := { userId := some "u1", orderId := none, description := none } }))⟩
        { users := [{ id := "u1", fcmToken := some "tok" }] }).resp = .received ∧
      (stripeWebhook (some "whsec") 3 true
        ⟨.paymentIntentSucceeded
           { id := "pi_1", amount := 5000, currency := "usd",
             metadata := { userId := some "u1", orderId := none, description := none } },
         signatureOf "whsec" (encodeEvent (.paymentIntentSucceeded
           { id := "pi_1", amount := 5000, currency := "usd",
             metadata := { userId := some "u1", orderId := none, description := none } }))⟩
        { users := [{ id := "u1", fcmToken := some "tok" }] }).store
        = (stripeWebhook (some "whsec") 3 false
        ⟨.paymentIntentSucceeded
           { id := "pi_1", amount := 5000, currency := "usd",
             metadata := { userId := some "u1", orderId := none, description := none } },
         signatureOf "whsec" (encodeEvent (.paymentIntentSucceeded
           { id := "pi_1", amount := 5000, currency := "usd",
             metadata := { userId := some "u1", orderId := none, description := none } }))⟩
        { users := [{ id := "u1", fcmToken := some "tok" }] }).store ∧
      (∃ p : Payment,
        (stripeWebhook (some "whsec") 3 true
          ⟨.paymentIntentSucceeded
             { id := "pi_1", amount := 5000, currency := "usd",
               metadata := { userId := some "u1", orderId := none, description := none } },
           signatureOf "whsec" (encodeEvent (.paymentIntentSucceeded
             { id := "pi_1", amount := 5000, currency := "usd",
               metadata := { userId := some "u1", orderId := none, description := none } }))⟩
          { users := [{ id := "u1", fcmToken := some "tok" }] }).store.payments
          = ({ users := [{ id := "u1", fcmToken := some "tok" }] } : Store).payments ++ [p]) ∧
      (∀ notifOk : Bool, ∃ mid : List Step,
        (stripeWebhook (some "whsec") 3 notifOk
          ⟨.paymentIntentSucceeded
             { id := "pi_1", amount := 5000, currency := "usd",
               metadata := { userId := some "u1", orderId := none, description := none } },
           signatureOf "whsec" (encodeEvent (.paymentIntentSucceeded
             { id := "pi_1", amount := 5000, currency := "usd",
               metadata := { userId := some "u1", orderId := none, description := none } }))⟩
          { users := [{ id := "u1", fcmToken := some "tok" }] }).trace
          = Step.dbWrite :: mid ++ [Step.respond])) :=
  ⟨rfl, payment_ack_independent_of_notification_outcome "whsec" 3 _ "u1" _ rfl⟩

/-- C9 counterexample: completedAt is not set at most once. Starting from a
PENDING order, updating to COMPLETED at time 1 sets completedAt to 1; a
further update to IN_PROGRESS at time 2 leaves it at 1; re-updating to
COMPLETED at time 3 sets completedAt a second time, to 3 — so the recorded
value no longer equals the first completion time. -/
theorem order_completed_at_reset_on_recompletion :
    (updateOrderRoute 1 "u1" "o1" { status := some .COMPLETED }
        { orders := [{ id := "o1", userId := "u1", title := "Reupholster sofa",
                       status := .PENDING, completedAt := none }] }).2.orders
      = [{ id := "o1", userId := "u1", title := "Reupholster sofa",
           status := .COMPLETED, completedAt := some 1 }] ∧
    (updateOrderRoute 3 "u1" "o1" { status := some .COMPLETED }
        (updateOrderRoute 2 "u1" "o1" { status := some .IN_PROGRESS }
          (updateOrderRoute 1 "u1" "o1" { status := some .COMPLETED }
            { orders := [{ id := "o1", userId := "u1", title := "Reupholster sofa",
                           status := .PENDING, completedAt := none }] }).2).2).2.orders
      = [{ id := "o1", userId := "u1", title := "Reupholster sofa",
           status := .COMPLETED, completedAt := some 3 }] ∧
    some (3 : Nat) ≠ some (1 : Nat) := by
  refine ⟨by decide, by decide, by decide⟩

/-- C9 amended: updating an order whose status is not COMPLETED to status
COMPLETED sets completedAt to the processing time, and any update of an
already-COMPLETED order (including a no-op COMPLETED→COMPLETED update)
leaves every row's completedAt unchanged; completedAt is thus set on each
transition into COMPLETED, so it can be set again if the status leaves
COMPLETED and later returns. -/
theorem order_completed_at_follows_completion_transitions
    (now : Nat) (userId orderId : String) (req : OrderUpdateReq) (s : Store)
    (existing : Order)
    (hfind : s.orders.find? (fun o => o.id = orderId && o.userId = userId)
      = some existing) :
    (req.status = some .COMPLETED → existing.status ≠ .COMPLETED →
      (updateOrderRoute now userId orderId req s).1
        = .updated (applyPatch (buildOrderPatch now req existing) existing) ∧
      (applyPatch (buildOrderPatch now req existing) existing).completedAt
        = some now ∧
      ∀ o ∈ (updateOrderRoute now userId orderId req s).2.orders,
        o.id = orderId → o.completedAt = some now) ∧
    (existing.status = .COMPLETED →
      (updateOrderRoute now userId orderId req s).1
        = .updated (applyPatch (buildOrderPatch now req existing) existing) ∧
      (applyPatch (buildOrderPatch now req existing) existing).completedAt
        = existing.completedAt ∧
      ∀ o ∈ (updateOrderRoute now userId orderId req s).2.orders,
        ∃ o0 ∈ s.orders, o.completedAt = o0.completedAt) := by
  constructor
  · intro hst hne
    have hpatch : (buildOrderPatch now req existing).completedAt = some now := by
      simp only [buildOrderPatch]
      exact if_pos ⟨hst, hne⟩
    refine ⟨by simp only [updateOrderRoute, hfind], ?_, ?_⟩
    · simp only [applyPatch, hpatch]
    · intro o ho hid
      simp only [updateOrderRoute, hfind, List.mem_map] at ho
      obtain ⟨o0, _, ho0⟩ := ho
      by_cases h0 : o0.id = orderId
      · rw [if_pos h0] at ho0
        subst ho0
        simp only [applyPatch, hpatch]
      · rw [if_neg h0] at ho0
        subst ho0
        exact absurd hid h0
  · intro hc
    have hpatch : (buildOrderPatch now req existing).completedAt = none := by
      simp only [buildOrderPatch]
      exact if_neg (fun hand => hand.2 hc)
    refine ⟨by simp only [updateOrderRoute, hfind], ?_, ?_⟩
    · simp only [applyPatch, hpatch]
    · intro o ho
      simp only [updateOrderRoute, hfind, List.mem_map] at ho
      obtain ⟨o0, hmem, ho0⟩ := ho
      by_cases h0 : o0.id = orderId
      · rw [if_pos h0] at ho0
        subst ho0
        exact ⟨o0, hmem, by simp only [applyPatch, hpatch]⟩
      · rw [if_neg h0] at ho0
        subst ho0
        exact ⟨o0, hmem, rfl⟩

/-- Witness for the amended C9: a PENDING order updated to COMPLETED at time
5 gets completedAt 5; a COMPLETED order (completedAt 2) updated again to
COMPLETED keeps completedAt 2. -/
theorem order_completed_at_follows_completion_transitions_witness :
    (({ orders := [{ id := "o1", userId := "u1", title := "t",
                     status := .PENDING, completedAt := none }] } : Store).orders.find?
        (fun o => o.id = "o1" && o.userId = "u1")
      = some { id := "o1", userId := "u1", title := "t",
               status := .PENDING, completedAt := none }) ∧
    (({ status := some .COMPLETED } : OrderUpdateReq).status = some .COMPLETED) ∧
    (applyPatch (buildOrderPatch 5 { status := some .COMPLETED }
        { id := "o1", userId := "u1", title := "t",
          status := .PENDING, completedAt := none })
        { id := "o1", userId := "u1", title := "t",
          status := .PENDING, completedAt := none }).completedAt = some 5 ∧
    (({ orders := [{ id := "o1", userId := "u1", title := "t",
                     status := .COMPLETED, completedAt := some 2 }] } : Store).orders.find?
        (fun o => o.id = "o1" && o.userId = "u1")
      = some { id := "o1", userId := "u1", title := "t",
               status := .COMPLETED, completedAt := some 2 }) ∧
    (applyPatch (buildOrderPatch 9 { status := some .COMPLETED }
        { id := "o1", userId := "u1", title := "t",
          status := .COMPLETED, completedAt := some 2 })
        { id := "o1", userId := "u1", title := "t",
          status := .COMPLETED, completedAt := some 2 }).completedAt = some 2 :=
  ⟨by decide, rfl,
   ((order_completed_at_follows_completion_transitions 5 "u1" "o1"
      { status := some .COMPLETED }
      { orders := [{ id := "o1", userId := "u1", title := "t",
                     status := .PENDING, completedAt := none }] }
      { id := "o1", userId := "u1", title := "t",
        status := .PENDING, completedAt := none }
      (by decide)).1 rfl (by decide)).2.1,
   by decide,
   ((order_completed_at_follows_completion_transitions 9 "u1" "o1"
      { status := some .COMPLETED }
      { orders := [{ id := "o1", userId := "u1", title := "t",
                     status := .COMPLETED, completedAt := some 2 }] }
      { id := "o1", userId := "u1", title := "t",
        status := .COMPLETED, completedAt := some 2 }
      (by decide)).2 rfl).2.1⟩

/-- A PostLike matches the compound key `(postId, userId)` exactly when it
is that key (the row has no other fields). -/
theorem postLike_key_eq (l : PostLike) (a b : String) :
    (l.postId = a && l.userId = b) = true ↔ l = { postId := a, userId := b } := by
  cases l
  simp [PostLike.mk.injEq]

/-- A map that changes only the likes counter preserves the like route's
post lookup predicate. -/
theorem find_pred_stable (postId : String) (d : Int) (p : Post) :
    (fun p : Post => p.id = postId && p.isPublished)
        (if p.id = postId then { p with likes := p.likes + d } else p)
      = (fun p : Post => p.id = postId && p.isPublished) p := by
  by_cases hid : p.id = postId
  · rw [if_pos hid]
  · rw [if_neg hid]

/-- C10: the like endpoint is a toggle. For a published post, under the
store invariant that the compound unique key admits at most one PostLike row
per (post, user) pair: a call deletes the existing like, decrements the
post's likes counter and answers liked=false, or creates the like,
increments the counter and answers liked=true; two successive calls by the
same user restore both the PostLike rows (up to order) and every likes
counter to their original values. -/
theorem like_toggle_involution (userId postId : String) (s : Store)
    (hp : (s.posts.find? (fun p => p.id = postId && p.isPublished)).isSome = true)
    (hinv : s.postLikes.count { postId := postId, userId := userId } ≤ 1) :
    (likePost userId postId s).1 = .toggled (!(hasLike userId postId s)) ∧
    (likePost userId postId s).2.posts
      = s.posts.map (fun p => if p.id = postId then
          { p with likes := p.likes +
              (if hasLike userId postId s then -1 else 1) } else p) ∧
    (hasLike userId postId s = false →
      (likePost userId postId s).2.postLikes
        = s.postLikes ++ [{ postId := postId, userId := userId }]) ∧
    (hasLike userId postId s = true →
      (likePost userId postId s).2.postLikes
        = s.postLikes.filter (fun l => !(l.postId = postId && l.userId = userId))) ∧
    (likePost userId postId (likePost userId postId s).2).1
      = .toggled (hasLike userId postId s) ∧
    (likePost userId postId (likePost userId postId s).2).2.posts = s.posts ∧
    ((likePost userId postId (likePost userId postId s).2).2.postLikes).Perm
      s.postLikes := by
  obtain ⟨q, hq⟩ := Option.isSome_iff_exists.mp hp
  by_cases h1 : hasLike userId postId s
  · -- the like exists: first call deletes it and decrements
    have ho1 : likePost userId postId s =
        (.toggled false,
         { s with
           postLikes := s.postLikes.filter
             (fun l => !(l.postId = postId && l.userId = userId))
           posts := s.posts.map (fun p =>
             if p.id = postId then { p with likes := p.likes - 1 } else p) }) := by
      simp only [likePost, hq, if_pos h1]
    have hfind2 : (s.posts.map (fun p =>
          if p.id = postId then { p with likes := p.likes - 1 } else p)).find?
          (fun p => p.id = postId && p.isPublished) = some
          (if q.id = postId then { q with likes := q.likes - 1 } else q) := by
      rw [show (fun p : Post => if p.id = postId then { p with likes := p.likes - 1 } else p)
            = (fun p : Post => if p.id = postId then { p with likes := p.likes + (-1) } else p) by
          funext p; rw [sub_eq_add_neg],
        List.find?_map]
      have : ((fun p : Post => p.id = postId && p.isPublished) ∘
          (fun p : Post => if p.id = postId then { p with likes := p.likes + (-1) } else p))
          = (fun p : Post => p.id = postId && p.isPublished) := by
        funext p
        exact find_pred_stable postId (-1) p
      rw [this, hq]
      simp [sub_eq_add_neg]
    have hnolike2 : hasLike userId postId
        { s with
          postLikes := s.postLikes.filter
            (fun l => !(l.postId = postId && l.userId = userId))
          posts := s.posts.map (fun p =>
            if p.id = postId then { p with likes := p.likes - 1 } else p) } = false := by
      simp only [hasLike, List.any_eq_false]
      intro l hl
      have := (List.mem_filter.mp hl).2
      simp only [Bool.not_eq_eq_eq_not, Bool.not_true] at this
      simp [this]
    have hlkmem : ({ postId := postId, userId := userId } : PostLike) ∈ s.postLikes := by
      have := List.any_eq_true.mp h1
      obtain ⟨l, hl, hkey⟩ := this
      rwa [(postLike_key_eq l postId userId).mp hkey] at hl
    have hcount1 : s.postLikes.count ({ postId := postId, userId := userId } : PostLike) = 1 :=
      le_antisymm hinv (List.count_pos_iff.mpr hlkmem)
    refine ⟨by rw [ho1, h1]; rfl, by rw [ho1]; simp [h1, sub_eq_add_neg], ?_, ?_, ?_, ?_, ?_⟩
    · intro h
      rw [h1] at h
      cases h
    · intro _
      rw [ho1]
    · rw [ho1]
      simp only [likePost, hfind2, hnolike2, Bool.false_eq_true, if_false, h1]
    · rw [ho1]
      simp only [likePost, hfind2, hnolike2, Bool.false_eq_true, if_false]
      rw [List.map_map]
      have : ((fun p : Post => if p.id = postId then { p with likes := p.likes + 1 } else p) ∘
          (fun p : Post => if p.id = postId then { p with likes := p.likes - 1 } else p))
          = fun p : Post => p := by
        funext p
        cases p with
        | mk pid ppub plikes =>
            by_cases hid : pid = postId <;> simp [Function.comp, hid]
      rw [this]
      simp
    · rw [ho1]
      simp only [likePost, hfind2, hnolike2, Bool.false_eq_true, if_false]
      rw [List.perm_iff_count]
      intro x
      by_cases hx : x = ({ postId := postId, userId := userId } : PostLike)
      · subst hx
        rw [List.count_append, hcount1]
        have hnot : ({ postId := postId, userId := userId } : PostLike) ∉
            s.postLikes.filter
              (fun l => !(l.postId = postId && l.userId = userId)) := by
          intro hmem
          have := (List.mem_filter.mp hmem).2
          simp at this
        rw [List.count_eq_zero.mpr hnot]
        simp
      · have hkeyx : (x.postId = postId && x.userId = userId) = false := by
          by_contra hc
          exact hx ((postLike_key_eq x postId userId).mp
            (by revert hc; cases (x.postId = postId && x.userId = userId) <;> simp))
        rw [List.count_append]
        rw [List.count_filter (by simp [hkeyx])]
        have : List.count x [({ postId := postId, userId := userId } : PostLike)] = 0 := by
          rw [List.count_singleton]
          simp only [beq_iff_eq]
          rw [if_neg (fun h => hx h.symm)]
        rw [this]
        rfl
  · -- no like yet: first call creates it and increments
    have h1f : hasLike userId postId s = false := by
      revert h1
      cases hasLike userId postId s <;> simp
    have ho1 : likePost userId postId s =
        (.toggled true,
         { s with
           postLikes := s.postLikes ++ [{ postId := postId, userId := userId }]
           posts := s.posts.map (fun p =>
             if p.id = postId then { p with likes := p.likes + 1 } else p) }) := by
      simp only [likePost, hq, h1f, Bool.false_eq_true, if_false]
    have hfind2 : (s.posts.map (fun p =>
          if p.id = postId then { p with likes := p.likes + 1 } else p)).find?
          (fun p => p.id = postId && p.isPublished) = some
          (if q.id = postId then { q with likes := q.likes + 1 } else q) := by
      rw [List.find?_map]
      have : ((fun p : Post => p.id = postId && p.isPublished) ∘
          (fun p : Post => if p.id = postId then { p with likes := p.likes + 1 } else p))
          = (fun p : Post => p.id = postId && p.isPublished) := by
        funext p
        exact find_pred_stable postId 1 p
      rw [this, hq]
      rfl
    have hlike2 : hasLike userId postId
        { s with
          postLikes := s.postLikes ++ [{ postId := postId, userId := userId }]
          posts := s.posts.map (fun p =>
            if p.id = postId then { p with likes := p.likes + 1 } else p) } = true := by
      simp only [hasLike, List.any_append]
      have : ([({ postId := postId, userId := userId } : PostLike)].any
          (fun l => l.postId = postId && l.userId = userId)) = true := by simp
      rw [this]
      simp
    have hfilter : (s.postLikes ++ [({ postId := postId, userId := userId } : PostLike)]).filter
        (fun l => !(l.postId = postId && l.userId = userId)) = s.postLikes := by
      rw [List.filter_append]
      have h2 : ([({ postId := postId, userId := userId } : PostLike)].filter
          (fun l => !(l.postId = postId && l.userId = userId))) = [] := by simp
      have h3 : s.postLikes.filter
          (fun l => !(l.postId = postId && l.userId = userId)) = s.postLikes := by
        rw [List.filter_eq_self]
        intro l hl
        have := List.any_eq_false.mp h1f l hl
        revert this
        cases hk : (l.postId = postId && l.userId = userId) <;> simp
      rw [h2, h3, List.append_nil]
    refine ⟨by rw [ho1, h1f]; rfl, by rw [ho1]; simp [h1f], ?_, ?_, ?_, ?_, ?_⟩
    · intro _
      rw [ho1]
    · intro h
      rw [h1f] at h
      cases h
    · rw [ho1]
      simp only [likePost, hfind2, hlike2, if_true, h1f]
    · rw [ho1]
      simp only [likePost, hfind2, hlike2, if_true]
      rw [List.map_map]
      have : ((fun p : Post => if p.id = postId then { p with likes := p.likes - 1 } else p) ∘
          (fun p : Post => if p.id = postId then { p with likes := p.likes + 1 } else p))
          = fun p : Post => p := by
        funext p
        cases p with
        | mk pid ppub plikes =>
            by_cases hid : pid = postId <;> simp [Function.comp, hid]
      rw [this]
      simp
    · rw [ho1]
      simp only [likePost, hfind2, hlike2, if_true, hfilter]
      exact List.Perm.refl _

/-- Witness for C10: one user toggling a published post with an empty like
table. -/
theorem like_toggle_involution_witness :
    ((({ posts := [{ id := "p1", isPublished := true, likes := 0 }] } :
        Store).posts.find? (fun p => p.id = "p1" && p.isPublished)).isSome = true) ∧
    (({ posts := [{ id := "p1", isPublished := true, likes := 0 }] } :
        Store).postLikes.count { postId := "p1", userId := "u1" } ≤ 1) ∧
    ((likePost "u1" "p1"
        { posts := [{ id := "p1", isPublished := true, likes := 0 }] }).1
      = .toggled (!(hasLike "u1" "p1"
          { posts := [{ id := "p1", isPublished := true, likes := 0 }] })) ∧
    (likePost "u1" "p1" (likePost "u1" "p1"
        { posts := [{ id := "p1", isPublished := true, likes := 0 }] }).2).2.posts
      = ({ posts := [{ id := "p1", isPublished := true, likes := 0 }] } : Store).posts ∧
    ((likePost "u1" "p1" (likePost "u1" "p1"
        { posts := [{ id := "p1", isPublished := true, likes := 0 }] }).2).2.postLikes).Perm
      ({ posts := [{ id := "p1", isPublished := true, likes := 0 }] } : Store).postLikes) :=
  ⟨by decide, by decide,
   (like_toggle_involution "u1" "p1"
      { posts := [{ id := "p1", isPublished := true, likes := 0 }] }
      (by decide) (by decide)).1,
   (like_toggle_involution "u1" "p1"
      { posts := [{ id := "p1", isPublished := true, likes := 0 }] }
      (by decide) (by decide)).2.2.2.2.2.1,
   (like_toggle_involution "u1" "p1"
      { posts := [{ id := "p1", isPublished := true, likes := 0 }] }
      (by decide) (by decide)).2.2.2.2.2.2⟩

end Tapiceros
